import Mathlib

/-!
Verification of the artifact-extraction and task-graph engine of the
wayfinder retail demo (`demo/run_self_tracking_demo.py` and
`demo/setup_demo_tasks.py`).

The Python code is shallowly embedded: text is `List Char`, the regular
expressions of the source are embedded as explicit matching functions with
the backtracking behaviour of Python's `re` module on these particular
patterns, Python's `json.JSONDecoder.raw_decode` is embedded as a fuel-based
recursive descent parser over the grammar the CPython `json` module accepts
(objects, arrays, strings with escapes, numbers, `true`/`false`/`null`,
`NaN`/`Infinity`/`-Infinity`, whitespace `[ \t\n\r]` between tokens), and
file writes are represented by returning the list of (filename, content)
pairs that the code would write.  Character classes model the ASCII
behaviour of `str.strip`/`str.lstrip` and of `\s`/`\w`/`\S` in `re`.
-/

set_option maxRecDepth 20000

/-! ### Python string primitives -/

/-- Whitespace as recognised by Python's `str.strip`/`str.lstrip` and by the
`\s` class of the `re` module, restricted to ASCII. -/
def pyWs (c : Char) : Bool :=
  c = ' ' || c = '\t' || c = '\n' || c = '\r' || c = '\x0b' || c = '\x0c'

/-- Word characters of the `\w` regex class (ASCII). -/
def wordChar (c : Char) : Bool :=
  c.isAlpha || c.isDigit || c = '_'

/-- `str.lstrip()` on a character list. -/
def pylstrip (l : List Char) : List Char := l.dropWhile pyWs

/-- `str.rstrip()` on a character list. -/
def pyrstrip (l : List Char) : List Char := (l.reverse.dropWhile pyWs).reverse

/-- `str.strip()` on a character list. -/
def pystrip (l : List Char) : List Char := pyrstrip (pylstrip l)

/-- `str.split('\n')`: always returns at least one piece; a trailing
newline yields a final empty piece, like Python. -/
def splitLines : List Char → List (List Char)
  | [] => [[]]
  | c :: r =>
    if c = '\n' then [] :: splitLines r
    else
      match splitLines r with
      | [] => [[c]]
      | h :: t => (c :: h) :: t

/-- `'\n'.join(...)` on character lists. -/
def joinLines (ls : List (List Char)) : List Char :=
  (ls.intersperse ['\n']).flatten

/-! ### `_truncate_to_valid_yaml` (run_self_tracking_demo.py lines 259-272) -/

/-- The per-line test of `_truncate_to_valid_yaml`:
`line.strip().startswith('## ') or line.strip().startswith('# ')`. -/
def isHeadingLine (l : List Char) : Bool :=
  let s := pystrip l
  List.isPrefixOf ('#' :: '#' :: ' ' :: []) s || List.isPrefixOf ('#' :: ' ' :: []) s

/-- `_truncate_to_valid_yaml`: cut before the first markdown-heading-like
line (the `for`/`break` loop is `List.findIdx`, whose default is the line
count), then join and `strip()`. -/
def truncateToValidYaml (t : List Char) : List Char :=
  let lines := splitLines t
  let cut := lines.findIdx isHeadingLine
  pystrip (joinLines (lines.take cut))

/-! ### Python `json.JSONDecoder.raw_decode` (used by `_truncate_to_valid_json`)

The functions below embed the acceptance behaviour of CPython's pure-python
`json` scanner: which texts a `raw_decode` starting at index 0 accepts, and
how many characters the first decoded value consumes.  Each parse function
takes the current suffix of the input and returns the suffix remaining
after the parsed construct (so the consumed length is the difference of
lengths).  `fuel` bounds the nesting depth; `rawDecode` supplies fuel
larger than the input length, and every recursive call strictly consumes
input, so fuel exhaustion is unreachable on the call depths that arise. -/

/-- Whitespace skipped between JSON tokens (`json.decoder.WHITESPACE`:
space, tab, newline, carriage return only). -/
def jsonWs (c : Char) : Bool :=
  c = ' ' || c = '\t' || c = '\n' || c = '\r'

def skipJsonWs (l : List Char) : List Char := l.dropWhile jsonWs

def isHexChar (c : Char) : Bool :=
  c.isDigit || ('a' ≤ c && c ≤ 'f') || ('A' ≤ c && c ≤ 'F')

/-- `s[idx:idx+len(tok)] == tok` check of the python scanner's literal
tokens: consume `tok` when it is a prefix. -/
def stripTok (tok : List Char) (l : List Char) : Option (List Char) :=
  if tok.isPrefixOf l then some (l.drop tok.length) else none

/-- Body of a JSON string after the opening quote (`py_scanstring`): ends at
an unescaped quote; `\uXXXX` needs four hex digits; the eight simple escapes
are allowed; unescaped control characters below 0x20 are rejected
(strict mode).  Returns the suffix after the closing quote.  `fuel` bounds
the number of steps; callers pass `length + 1`, and every step consumes at
least one character, so the bound is never hit. -/
def parseStringBody : Nat → List Char → Option (List Char)
  | 0, _ => none
  | _ + 1, [] => none
  | fuel + 1, c :: r =>
    if c = '"' then some r
    else if c = '\\' then
      match r with
      | [] => none
      | e :: r1 =>
        if e = '"' || e = '\\' || e = '/' || e = 'b' || e = 'f' || e = 'n'
            || e = 'r' || e = 't' then
          parseStringBody fuel r1
        else if e = 'u' then
          match r1 with
          | h1 :: h2 :: h3 :: h4 :: r2 =>
            if isHexChar h1 && isHexChar h2 && isHexChar h3 && isHexChar h4 then
              parseStringBody fuel r2
            else none
          | _ => none
        else none
    else if c.toNat < 0x20 then none else parseStringBody fuel r

/-- Length matched by `json.scanner.NUMBER_RE`
(`-?(0|[1-9][0-9]*)(\.[0-9]+)?([eE][+-]?[0-9]+)?`), or `none` when the
regex does not match at the current position. -/
def parseNumberLen (l : List Char) : Option Nat :=
  let (sgn, l1) := match l with
    | '-' :: r => (1, r)
    | _ => (0, l)
  match l1 with
  | [] => none
  | c :: r =>
    if c = '0' || (c.isDigit && c ≠ '0') then
      let intLen := if c = '0' then 1 else 1 + (r.takeWhile Char.isDigit).length
      let l2 := l1.drop intLen
      let fracLen := match l2 with
        | '.' :: r2 =>
          let ds := (r2.takeWhile Char.isDigit).length
          if ds = 0 then 0 else 1 + ds
        | _ => 0
      let l3 := l2.drop fracLen
      let expLen := match l3 with
        | e :: r3 =>
          if e = 'e' || e = 'E' then
            let (sLen, r4) := match r3 with
              | '+' :: r5 => (1, r5)
              | '-' :: r5 => (1, r5)
              | _ => (0, r3)
            let ds := (r4.takeWhile Char.isDigit).length
            if ds = 0 then 0 else 1 + sLen + ds
          else 0
        | [] => 0
      some (sgn + intLen + fracLen + expLen)
    else none

mutual

/-- `scan_once` of the python scanner: dispatch on the first character.
Returns the suffix after the first JSON value. -/
def parseValue : Nat → List Char → Option (List Char)
  | 0, _ => none
  | _ + 1, [] => none
  | fuel + 1, c :: r =>
    if c = '"' then parseStringBody (r.length + 1) r
    else if c = '{' then parseObjStart fuel r
    else if c = '[' then parseArrStart fuel r
    else if c = 'n' then stripTok ("ull").data r
    else if c = 't' then stripTok ("rue").data r
    else if c = 'f' then stripTok ("alse").data r
    else if c = 'N' then stripTok ("aN").data r
    else if c = 'I' then stripTok ("nfinity").data r
    else
      match parseNumberLen (c :: r) with
      | some n => some ((c :: r).drop n)
      | none =>
        if c = '-' then stripTok ("Infinity").data r else none

/-- Inside an object, just after `{` (python `JSONObject`). -/
def parseObjStart : Nat → List Char → Option (List Char)
  | 0, _ => none
  | fuel + 1, l =>
    match skipJsonWs l with
    | [] => none
    | c :: r =>
      if c = '}' then some r
      else if c = '"' then
        match parseStringBody (r.length + 1) r with
        | none => none
        | some afterKey =>
          match skipJsonWs afterKey with
          | [] => none
          | c2 :: r2 =>
            if c2 = ':' then
              match parseValue fuel (skipJsonWs r2) with
              | none => none
              | some afterVal => parseObjLoop fuel afterVal
            else none
      else none

/-- Inside an object, just after a member value: expect `}` or `,` plus the
next `"key": value` pair. -/
def parseObjLoop : Nat → List Char → Option (List Char)
  | 0, _ => none
  | fuel + 1, l =>
    match skipJsonWs l with
    | [] => none
    | c :: r =>
      if c = '}' then some r
      else if c = ',' then
        match skipJsonWs r with
        | [] => none
        | c2 :: r2 =>
          if c2 = '"' then
            match parseStringBody (r2.length + 1) r2 with
            | none => none
            | some afterKey =>
              match skipJsonWs afterKey with
              | [] => none
              | c3 :: r3 =>
                if c3 = ':' then
                  match parseValue fuel (skipJsonWs r3) with
                  | none => none
                  | some afterVal => parseObjLoop fuel afterVal
                else none
          else none
      else none

/-- Inside an array, just after `[` (python `JSONArray`). -/
def parseArrStart : Nat → List Char → Option (List Char)
  | 0, _ => none
  | fuel + 1, l =>
    match skipJsonWs l with
    | [] => none
    | c :: r =>
      if c = ']' then some r
      else
        match parseValue fuel (skipJsonWs l) with
        | none => none
        | some afterVal => parseArrLoop fuel afterVal

/-- Inside an array, just after an element: expect `]` or `,` plus the next
element. -/
def parseArrLoop : Nat → List Char → Option (List Char)
  | 0, _ => none
  | fuel + 1, l =>
    match skipJsonWs l with
    | [] => none
    | c :: r =>
      if c = ']' then some r
      else if c = ',' then
        match parseValue fuel (skipJsonWs r) with
        | none => none
        | some afterVal => parseArrLoop fuel afterVal
      else none

end

/-- `json.JSONDecoder().raw_decode(s)` at index 0: the suffix after the
first value, or `none` when decoding raises. -/
def rawDecode (l : List Char) : Option (List Char) :=
  parseValue (l.length + 2) l

/-! ### `_truncate_to_valid_json` (run_self_tracking_demo.py lines 246-256) -/

/-- `_truncate_to_valid_json`: lstrip, return unless the text starts with
`{` or `[`, otherwise `raw_decode` and keep `text[:end].strip()`; a decode
error returns the (lstripped) text. -/
def truncateToValidJson (t : List Char) : List Char :=
  let t1 := pylstrip t
  match t1.head? with
  | none => t1
  | some c =>
    if c = '{' || c = '[' then
      match rawDecode t1 with
      | some rest => pystrip (t1.take (t1.length - rest.length))
      | none => t1
    else t1

/-! ### The delimiter regex `^---\s*(\w+):\s*(\S+)\s*---\s*$` (MULTILINE)

and the fence regexes `^```\w*\s*$` / `^```\s*$` of `_strip_code_fences`.
Each matcher works on the suffix of the text at a line start and returns
the number of characters the match consumes (`match.end() - match.start()`),
reproducing the greedy-with-backtracking behaviour of these patterns.  Note
`\s` can consume newlines, so `\s*$` may swallow whole blank lines: the
match ends at the last position inside the whitespace run that is the end
of the text or directly before a `'\n'`. -/

/-- `\s*$` in MULTILINE mode, starting at `t`: the consumed length, i.e. the
largest number of leading whitespace characters after which the position is
the end of the text or faces a `'\n'`; `none` when no such position exists
(the regex fails). -/
def matchWsEol (t : List Char) : Option Nat :=
  let r := (t.takeWhile pyWs).length
  (List.range (r + 1)).reverse.find? fun i =>
    (t.drop i).isEmpty || (t.drop i).head? = some '\n'

/-- `\s*---\s*$` starting at `t` (tail of the delimiter after the name). -/
def matchDelimTail (t : List Char) : Option Nat :=
  let w := (t.takeWhile pyWs).length
  match t.drop w with
  | '-' :: '-' :: '-' :: t2 => (matchWsEol t2).map fun i => w + 3 + i
  | _ => none

/-- `(\S+)\s*---\s*$` starting at `t`: greedy name with backtracking (the
name may directly abut the closing `---`).  Returns (name, consumed). -/
def matchNameTail (t : List Char) : Option (List Char × Nat) :=
  let n := (t.takeWhile fun c => !pyWs c).length
  if n = 0 then none
  else
    ((List.range n).reverse.map (· + 1)).findSome? fun k =>
      (matchDelimTail (t.drop k)).map fun j => (t.take k, k + j)

/-- The whole delimiter pattern at a line start; returns
(type token, name token, consumed length). -/
def matchDelimAt (t : List Char) : Option (List Char × List Char × Nat) :=
  match t with
  | '-' :: '-' :: '-' :: t1 =>
    let w1 := (t1.takeWhile pyWs).length
    let t2 := t1.drop w1
    let ty := t2.takeWhile wordChar
    if ty.isEmpty then none
    else
      match t2.drop ty.length with
      | ':' :: t3 =>
        let w2 := (t3.takeWhile pyWs).length
        (matchNameTail (t3.drop w2)).map fun (nm, j) =>
          (ty, nm, 3 + w1 + ty.length + 1 + w2 + j)
      | _ => none
  | _ => none

/-- One delimiter occurrence: `re.Match` start/end plus the two groups. -/
structure DelimMatch where
  mstart : Nat
  mend : Nat
  ty : String
  name : String
deriving DecidableEq, Repr

/-- `re.finditer` driver: scan left to right, try the pattern at every line
start, continue after each (non-empty) match.  `ls` records whether the
current position follows a `'\n'` (or is position 0). -/
def scanDelims : Nat → List Char → Nat → Bool → List DelimMatch
  | 0, _, _, _ => []
  | _, [], _, _ => []
  | fuel + 1, l@(c :: rest), pos, ls =>
    if ls then
      match matchDelimAt l with
      | some (ty, nm, n) =>
        { mstart := pos, mend := pos + n, ty := ty.asString, name := nm.asString } ::
          scanDelims fuel (l.drop n) (pos + n) (l.get? (n - 1) = some '\n')
      | none => scanDelims fuel rest (pos + 1) (c = '\n')
    else scanDelims fuel rest (pos + 1) (c = '\n')

/-- `list(_DELIMITER_RE.finditer(content))`. -/
def delimiterFinditer (content : List Char) : List DelimMatch :=
  scanDelims (content.length + 1) content 0 true

/-- `^(3 backticks)\w*\s*$` at a line start: consumed length. -/
def fenceMatch1At (t : List Char) : Option Nat :=
  match t with
  | '`' :: '`' :: '`' :: t1 =>
    let w := (t1.takeWhile wordChar).length
    (matchWsEol (t1.drop w)).map fun i => 3 + w + i
  | _ => none

/-- `^(3 backticks)\s*$` at a line start: consumed length. -/
def fenceMatch2At (t : List Char) : Option Nat :=
  match t with
  | '`' :: '`' :: '`' :: t1 => (matchWsEol t1).map fun i => 3 + i
  | _ => none

/-- `re.sub(pattern, '', text, flags=MULTILINE)` for a line-start-anchored
pattern: drop every non-overlapping match, keep everything else. -/
def subLineMatches (matchAt : List Char → Option Nat) :
    Nat → List Char → Bool → List Char
  | 0, l, _ => l
  | _ + 1, [], _ => []
  | fuel + 1, l@(c :: rest), ls =>
    if ls then
      match matchAt l with
      | some n => subLineMatches matchAt fuel (l.drop n) (l.get? (n - 1) = some '\n')
      | none => c :: subLineMatches matchAt fuel rest (c = '\n')
    else c :: subLineMatches matchAt fuel rest (c = '\n')

/-- `_strip_code_fences` (run_self_tracking_demo.py lines 237-243): two
`re.sub` passes then `strip()`. -/
def stripCodeFences (t : List Char) : List Char :=
  let t1 := subLineMatches fenceMatch1At (t.length + 1) t true
  let t2 := subLineMatches fenceMatch2At (t1.length + 1) t1 true
  pystrip t2

/-! ### Artifact routing tables (run_self_tracking_demo.py lines 91-130) -/

/-- One entry of `ARTIFACT_OUTPUT_CONFIG`: output directory, filename
suffix, file extension. -/
structure OutputCfg where
  dir : String
  sfx : String
  ext : String
deriving DecidableEq, Repr

/-- `ARTIFACT_OUTPUT_CONFIG.get(delimiter_type)`. -/
def artifactOutputConfig : String → Option OutputCfg
  | "DASHBOARD" => some { dir := "dashboards", sfx := "dashboard", ext := "json" }
  | "PROMETHEUS_RULE" => some { dir := "prometheus-rules", sfx := "rules", ext := "yaml" }
  | "SLO" => some { dir := "slo-definitions", sfx := "slo", ext := "yaml" }
  | "NOTIFICATION" => some { dir := "notification-policies", sfx := "notifications", ext := "yaml" }
  | "LOKI_RULE" => some { dir := "loki-rules", sfx := "loki-rules", ext := "yaml" }
  | "RUNBOOK" => some { dir := "runbooks", sfx := "runbook", ext := "md" }
  | _ => none

/-- `_TASK_KEY_TO_DELIMITER.get(artifact_key)`. -/
def taskKeyToDelimiter : String → Option String
  | "DASHBOARDS" => some "DASHBOARD"
  | "DASHBOARD" => some "DASHBOARD"
  | "ALERTS" => some "PROMETHEUS_RULE"
  | "SLOS" => some "SLO"
  | "NOTIFY" => some "NOTIFICATION"
  | "LOKI-RULES" => some "LOKI_RULE"
  | "RUNBOOKS" => some "RUNBOOK"
  | "RUNBOOK" => some "RUNBOOK"
  | _ => none

/-- `_ARTIFACT_KEY_TO_FACTORY.get(artifact_key)` (gates jsonnet compilation
of params files). -/
def artifactKeyToFactory : String → Option String
  | "DASHBOARDS" => some "dashboard"
  | "DASHBOARD" => some "dashboard"
  | "ALERTS" => some "alerts"
  | "SLOS" => some "slo"
  | "NOTIFY" => some "notification"
  | "LOKI-RULES" => some "loki_rules"
  | _ => none

/-! ### `_parse_task_artifact_key` (lines 229-234) -/

/-- `task_id.split('-', 2)`: at most two splits, so at most three pieces. -/
def splitDashMax2 (s : List Char) : List (List Char) :=
  let a := s.takeWhile (· ≠ '-')
  let r1 := s.drop a.length
  match r1 with
  | [] => [a]
  | _ :: r2 =>
    let b := r2.takeWhile (· ≠ '-')
    let r3 := r2.drop b.length
    match r3 with
    | [] => [a, b]
    | _ :: r4 => [a, b, r4]

/-- `_parse_task_artifact_key`: third dash segment of ids shaped
`OB-<scope>-<artifact>`, `None` otherwise. -/
def parseTaskArtifactKey (taskId : String) : Option String :=
  let parts := splitDashMax2 taskId.data
  if parts.length < 3 || parts.head? ≠ some ("OB").data then none
  else (parts.get? 2).map List.asString

/-! ### `_handle_raw_output` / `_handle_params_output` / `_split_and_save_artifacts`

File writes are modelled by the list of (filename, content) pairs the code
would write; the non-fatal truncation warning is modelled as data
(saved count, expected count); the external jsonnet compiler of
`_compile_jsonnet` is an oracle `compiles : String → Bool` telling, per
service name, whether compilation would produce an output file, and
`jsonnetAvail` models `JSONNET_BIN` being found on PATH. -/

/-- Result of one extraction call: files written, the returned count, and
any truncation warnings raised via `warnings.warn`. -/
structure SaveOutcome where
  files : List (String × List Char)
  count : Nat
  warns : List (Nat × Nat)
deriving DecidableEq, Repr

/-- The span owned by match `i`: from its `end()` to the next match's
`start()` (or the end of the text). -/
def rawSpan (content : List Char) (ms : List DelimMatch) (i : Nat) : List Char :=
  match ms.get? i with
  | none => []
  | some m =>
    let e := match ms.get? (i + 1) with
      | some m2 => m2.mstart
      | none => content.length
    (content.drop m.mend).take (e - m.mend)

/-- The truncation step of the raw-output loop, keyed on the configured
file extension. -/
def truncateForExt (ext : String) (t : List Char) : List Char :=
  if ext = "json" then truncateToValidJson t
  else if ext = "yaml" || ext = "yml" then truncateToValidYaml t
  else t

/-- The body of the raw-output loop for one enumerated match, minus the
type filter: strip the span, strip fences, truncate commentary, and save
(with a single appended newline) when non-empty. -/
def processRawEntry (cfg : OutputCfg) (content : List Char) (ms : List DelimMatch)
    (p : Nat × DelimMatch) : Option (String × List Char) :=
  let a0 := pystrip (rawSpan content ms p.1)
  if a0.isEmpty then none
  else
    let a1 := stripCodeFences a0
    if a1.isEmpty then none
    else
      let a2 := truncateForExt cfg.ext a1
      if a2.isEmpty then none
      else some (p.2.name ++ "-" ++ cfg.sfx ++ "." ++ cfg.ext, a2 ++ ['\n'])

/-- `_handle_raw_output` (lines 375-466). -/
def handleRawOutput (artifactKey : String) (content : List Char)
    (ms : List DelimMatch) (serviceNames : Option (List String)) : SaveOutcome :=
  match taskKeyToDelimiter artifactKey with
  | none => { files := [], count := 0, warns := [] }
  | some dt =>
    match artifactOutputConfig dt with
    | none => { files := [], count := 0, warns := [] }
    | some cfg =>
      if ms.isEmpty then
        -- single-service fallback, else the debug-print early return
        match serviceNames with
        | some [s] =>
          let a0 := stripCodeFences content
          let a1 := truncateForExt cfg.ext a0
          if a1.isEmpty then { files := [], count := 0, warns := [] }
          else
            { files := [(s ++ "-" ++ cfg.sfx ++ "." ++ cfg.ext, a1 ++ ['\n'])],
              count := 1, warns := [] }
        | _ => { files := [], count := 0, warns := [] }
      else
        let files := ms.enum.filterMap fun p =>
          if p.2.ty ≠ dt then none else processRawEntry cfg content ms p
        let saved := files.length
        let warns := match serviceNames with
          | some l => if !l.isEmpty && saved < l.length then [(saved, l.length)] else []
          | none => []
        { files := files, count := saved, warns := warns }

/-- The body of the params loop for one enumerated match, minus the type
filter: returns (service name, filename, saved content). -/
def processParamsEntry (content : List Char) (ms : List DelimMatch)
    (p : Nat × DelimMatch) : Option (String × String × List Char) :=
  let p0 := pystrip (rawSpan content ms p.1)
  if p0.isEmpty then none
  else
    let p1 := stripCodeFences p0
    if p1.isEmpty then none
    else some (p.2.name, p.2.name ++ "-params.libsonnet", p1 ++ ['\n'])

/-- `_handle_params_output` (lines 317-372): save `.libsonnet` params files,
compile each via the external jsonnet oracle when available, and return the
compiled count when positive, else the saved count.  No truncation warning
is emitted on this path. -/
def handleParamsOutput (jsonnetAvail : Bool) (compiles : String → Bool)
    (artifactKey : String) (content : List Char) (ms : List DelimMatch)
    (_serviceNames : Option (List String)) : SaveOutcome :=
  let entries := ms.enum.filterMap fun p =>
    if p.2.ty ≠ "PARAMS" then none else processParamsEntry content ms p
  let saved := entries.length
  let compiled :=
    if jsonnetAvail && (artifactKeyToFactory artifactKey).isSome then
      (entries.filter fun e => compiles e.1).length
    else 0
  { files := entries.map fun e => (e.2.1, e.2.2),
    count := if compiled > 0 then compiled else saved,
    warns := [] }

/-- `_split_and_save_artifacts` (lines 275-314), from the point where the
workflow payload has been coerced to text (`none` models a `None` payload,
which returns 0 immediately). -/
def splitAndSaveArtifacts (jsonnetAvail : Bool) (compiles : String → Bool)
    (taskId : String) (content : Option (List Char))
    (serviceNames : Option (List String)) : SaveOutcome :=
  match content with
  | none => { files := [], count := 0, warns := [] }
  | some text =>
    match parseTaskArtifactKey taskId with
    | none => { files := [], count := 0, warns := [] }
    | some key =>
      let ms := delimiterFinditer text
      if ms.any fun m => m.ty = "PARAMS" then
        handleParamsOutput jsonnetAvail compiles key text ms serviceNames
      else
        handleRawOutput key text ms serviceNames

/-! ### Service taxonomy (setup_demo_tasks.py lines 68-148)

`SERVICE_INFO` carries per-service language/description/dependency metadata
that feeds only the free-text prompts; the task-graph claims depend only on
its key set, embedded here in declaration order. -/

def SERVICE_INFO_NAMES : List String :=
  ["frontend", "checkoutservice", "cartservice", "paymentservice",
   "productcatalogservice", "currencyservice", "shippingservice",
   "emailservice", "recommendationservice", "adservice", "loadgenerator"]

/-- `TIER_MAP`. -/
def TIER_MAP : String → List String
  | "critical" => ["frontend", "checkoutservice", "cartservice", "paymentservice"]
  | "high" => ["productcatalogservice", "currencyservice", "shippingservice"]
  | "medium" => ["emailservice", "recommendationservice", "adservice"]
  | "low" => ["loadgenerator"]
  | _ => []

/-- `SERVICE_TO_TIER.get(service)` (reverse lookup of `TIER_MAP`). -/
def serviceToTier (svc : String) : Option String :=
  if svc ∈ TIER_MAP "critical" then some "critical"
  else if svc ∈ TIER_MAP "high" then some "high"
  else if svc ∈ TIER_MAP "medium" then some "medium"
  else if svc ∈ TIER_MAP "low" then some "low"
  else none

/-- Python `sorted` on strings: stable sort in code-point lexicographic
order (insertion sort with `≤`). -/
def lexLe : List Char → List Char → Bool
  | [], _ => true
  | _ :: _, [] => false
  | a :: as, b :: bs => a.val < b.val || (a = b && lexLe as bs)

def insertSorted (s : String) : List String → List String
  | [] => [s]
  | t :: ts => if lexLe s.data t.data then s :: t :: ts else t :: insertSorted s ts

def pySorted : List String → List String
  | [] => []
  | s :: rest => insertSorted s (pySorted rest)

/-- `str.upper()` (ASCII). -/
def pyUpper (s : String) : String := (s.data.map Char.toUpper).asString

/-! ### Task generation (setup_demo_tasks.py lines 1139-1360)

A task dict's `prompt` entry is free text assembled from the service
contexts by the prompt builders (lines 554-1108); no claim concerns it and
it is omitted from the embedding.  `present svc` models
`service_name in contexts`: `build_all_contexts` populates every
`SERVICE_INFO` key, so the real run uses `presentAll`. -/

structure TaskSpec where
  id : String
  title : String
  ttype : String
  phase : Nat
  dependsOn : List String
  package : String
  serviceName : Option String
deriving DecidableEq, Repr

/-- One entry of `TIER_CONFIGS` (batched mode). -/
structure TierConfig where
  tname : String
  pfx : String
  phase : Nat
  gateDeps : List String
  artifacts : List String
deriving DecidableEq, Repr

/-- `TIER_CONFIGS` (lines 151-178). -/
def TIER_CONFIGS : List TierConfig :=
  [{ tname := "critical", pfx := "CRIT", phase := 1, gateDeps := [],
     artifacts := ["DASHBOARDS", "ALERTS", "SLOS", "NOTIFY", "LOKI-RULES", "RUNBOOKS"] },
   { tname := "high", pfx := "HIGH", phase := 2, gateDeps := ["OB-CRIT-DASHBOARDS"],
     artifacts := ["DASHBOARDS", "ALERTS", "SLOS", "NOTIFY", "LOKI-RULES", "RUNBOOKS"] },
   { tname := "medium", pfx := "MED", phase := 3, gateDeps := ["OB-HIGH-DASHBOARDS"],
     artifacts := ["DASHBOARDS", "ALERTS", "SLOS", "NOTIFY", "LOKI-RULES", "RUNBOOKS"] },
   { tname := "low", pfx := "LOW", phase := 4, gateDeps := ["OB-MED-DASHBOARDS"],
     artifacts := ["DASHBOARD", "RUNBOOK"] }]

/-- `ARTIFACT_TITLES.get(key, key)` (lines 181-190). -/
def artifactTitle : String → String
  | "DASHBOARDS" => "Grafana dashboards"
  | "DASHBOARD" => "Grafana dashboard"
  | "ALERTS" => "PrometheusRule alert definitions"
  | "SLOS" => "SLO definitions"
  | "NOTIFY" => "notification policies"
  | "LOKI-RULES" => "Loki recording rules"
  | "RUNBOOKS" => "operational runbooks"
  | "RUNBOOK" => "operational runbook"
  | k => k

/-- `_generate_batched_tasks` (lines 1148-1188): one task per
(tier, artifact), phase and gate deps from `TIER_CONFIGS`.  `n` (the
expected-service count in the title) counts the tier's services present in
`contexts`. -/
def generateBatchedTasks (present : String → Bool) : List TaskSpec × List String :=
  let tasks := TIER_CONFIGS.flatMap fun tc =>
    let n := ((TIER_MAP tc.tname).filter present).length
    tc.artifacts.map fun key =>
      { id := "OB-" ++ tc.pfx ++ "-" ++ key,
        title := "Generate " ++ toString n ++ " " ++ artifactTitle key
          ++ " (" ++ tc.tname ++ " tier)",
        ttype := "task", phase := tc.phase, dependsOn := tc.gateDeps,
        package := "all", serviceName := none }
  (tasks, tasks.map (·.id))

/-- `_TIER_TO_PHASE.get(tier, 3)` (lines 1140-1145). -/
def tierToPhase : String → Nat
  | "critical" => 1
  | "high" => 2
  | "medium" => 3
  | "low" => 4
  | _ => 3

/-- Artifact list per service in decomposed mode (lines 1206-1210,
1231-1235). -/
def artifactsForService (svc : String) : List String :=
  if svc = "loadgenerator" then ["DASHBOARD", "RUNBOOK"]
  else ["DASHBOARDS", "ALERTS", "SLOS", "NOTIFY", "LOKI-RULES", "RUNBOOKS"]

/-- The per-tier inner loops of `_generate_decomposed_tasks`
(lines 1222-1278): services alphabetically, one task per artifact key, all
tasks of the tier sharing the dependency list `deps` (the prior tier's
dashboard ids). -/
def genTierTasks (present : String → Bool) (tier : String) (deps : List String) :
    List TaskSpec :=
  (pySorted (TIER_MAP tier)).flatMap fun svc =>
    if present svc then
      (artifactsForService svc).map fun key =>
        { id := "OB-" ++ pyUpper svc ++ "-" ++ key,
          title := "Generate " ++ artifactTitle key ++ " for " ++ svc,
          ttype := "task", phase := tierToPhase tier, dependsOn := deps,
          package := "all", serviceName := some svc }
    else []

/-- `tier_dashboard_ids[tier]` after a tier is processed: ids of its tasks
whose artifact key is `DASHBOARDS` or `DASHBOARD` (line 1277). -/
def tierDashboardIds (tasks : List TaskSpec) : List String :=
  (tasks.filter fun t =>
    parseTaskArtifactKey t.id = some "DASHBOARDS"
      ∨ parseTaskArtifactKey t.id = some "DASHBOARD").map (·.id)

/-- `_generate_decomposed_tasks` (lines 1191-1280): tiers in priority
order; each tier's tasks depend on all dashboard ids of the prior tier
(nothing for critical). -/
def generateDecomposedTasks (present : String → Bool) : List TaskSpec × List String :=
  let crit := genTierTasks present "critical" []
  let high := genTierTasks present "high" (tierDashboardIds crit)
  let med := genTierTasks present "medium" (tierDashboardIds high)
  let low := genTierTasks present "low" (tierDashboardIds med)
  let tasks := crit ++ high ++ med ++ low
  (tasks, tasks.map (·.id))

/-- `generate_observability_tasks` (lines 1283-1360): epic, artifact tasks
in the selected mode, then load / verify / summary.  `decompose` is the
`DECOMPOSE_TO_SINGLE_SERVICE` flag (`True` in the source). -/
def generateObservabilityTasks (decompose : Bool) (present : String → Bool) :
    List TaskSpec :=
  let (artifactTasks, allArtifactIds) :=
    if decompose then generateDecomposedTasks present
    else generateBatchedTasks present
  ({ id := "OB-EPIC", title := "Online Boutique Observability Artifact Generation",
     ttype := "epic", phase := 0, dependsOn := [], package := "all",
     serviceName := none } :: artifactTasks)
  ++ [{ id := "OB-LOAD", title := "Import observability artifacts to Grafana stack",
        ttype := "task", phase := 5, dependsOn := allArtifactIds,
        package := "spider", serviceName := none },
      { id := "OB-VERIFY", title := "Verify artifact generation and loading",
        ttype := "task", phase := 5, dependsOn := ["OB-LOAD"],
        package := "spider", serviceName := none },
      { id := "OB-SUMMARY", title := "Generate execution summary and coverage report",
        ttype := "task", phase := 6, dependsOn := ["OB-VERIFY"],
        package := "all", serviceName := none }]

/-- `build_all_contexts` constructs a context for every `SERVICE_INFO` key,
so every service is present in the real run. -/
def presentAll (svc : String) : Bool := SERVICE_INFO_NAMES.contains svc

/-- The task list the setup script persists, per mode. -/
def demoTasks (decompose : Bool) : List TaskSpec :=
  generateObservabilityTasks decompose presentAll

/-! ### Task-state persistence (setup_demo_tasks.py lines 1368-1494)

`generate_trace_id`/`generate_span_id` draw from `uuid.uuid4()`; the random
state is modelled as an oracle `uuid : Nat → String × String` giving the
(trace id, span id) drawn for the n-th created task, and `now` is the
wall-clock timestamp. -/

structure TaskStateRecord where
  task_id : String
  span_name : String
  trace_id : String
  span_id : String
  parent_span_id : Option String
  start_time : String
  attrTitle : String
  attrType : String
  attrStatus : String
  attrPriority : String
  attrDependsOn : List String
  attrPhase : Nat
  attrPackage : String
  statusStr : String
  schemaVersion : Nat
  projectId : String
deriving DecidableEq, Repr

/-- `create_task_json` (lines 1378-1414); the `task.prompt` attribute is
free text and omitted like the task dict's `prompt`. -/
def createTaskJson (task : TaskSpec) (traceId spanId now : String)
    (parentSpanId : Option String) : TaskStateRecord :=
  { task_id := task.id,
    span_name := "task:" ++ task.id,
    trace_id := traceId,
    span_id := spanId,
    parent_span_id := parentSpanId,
    start_time := now,
    attrTitle := task.title,
    attrType := task.ttype,
    attrStatus := "todo",
    attrPriority := if task.phase ≤ 2 then "high" else "medium",
    attrDependsOn := task.dependsOn,
    attrPhase := task.phase,
    attrPackage := task.package,
    statusStr := "UNSET",
    schemaVersion := 2,
    projectId := "ecosystem-demo" }

/-- The task-creation loop of `setup_demo_tasks` (lines 1461-1492) on a
fresh state directory: every task is written; non-epic tasks are parented
to the epic's span id once seen. -/
def persistTasks (uuid : Nat → String × String) (now : String) :
    List TaskSpec → Nat → Option String → List TaskStateRecord
  | [], _, _ => []
  | task :: rest, i, epicSpan =>
    let parentSpan := if task.ttype ≠ "epic" then epicSpan else none
    let rec0 := createTaskJson task (uuid i).1 (uuid i).2 now parentSpan
    let epicSpan2 := if task.ttype = "epic" then some rec0.span_id else epicSpan
    rec0 :: persistTasks uuid now rest (i + 1) epicSpan2

/-- One full setup run: generate the task list and persist it. -/
def setupRun (decompose : Bool) (uuid : Nat → String × String) (now : String) :
    List TaskStateRecord :=
  persistTasks uuid now (demoTasks decompose) 0 none

/-- The persisted data the determinism claim is about: task id, dependency
ids, phase. -/
def persistedCore (r : TaskStateRecord) : String × List String × Nat :=
  (r.task_id, r.attrDependsOn, r.attrPhase)

/-! ### Derived notions used by the theorems -/

/-- A text is already stripped when `strip()` leaves it unchanged. -/
def StrippedP (l : List Char) : Prop := pystrip l = l


/-- Direct dependency between task ids in a generated task list. -/
def taskDependsOn (ts : List TaskSpec) (x y : String) : Prop :=
  ∃ t ∈ ts, t.id = x ∧ y ∈ t.dependsOn


/-- A dashboard-kind task, identified by its artifact code. -/
def isDashTask (t : TaskSpec) : Bool :=
  parseTaskArtifactKey t.id = some "DASHBOARDS"
    || parseTaskArtifactKey t.id = some "DASHBOARD"

/-- The artifact tasks of decomposed mode, as generated by the real run. -/
def decompTasks : List TaskSpec := (generateDecomposedTasks presentAll).1

/-- The criticality tier a decomposed task belongs to. -/
def taskTier (t : TaskSpec) : Option String := t.serviceName.bind serviceToTier

/-- All dashboard-kind task ids of one tier, in generation order. -/
def dashIdsOfTier (tier : String) : List String :=
  (decompTasks.filter fun t => taskTier t = some tier && isDashTask t).map (·.id)


/-- The (service, artifact-kind) enumeration underlying decomposed-mode
ids: tiers in priority order, services alphabetically, artifacts in their
fixed per-service order. -/
def decomposedIdPairs : List (String × String) :=
  ["critical", "high", "medium", "low"].flatMap fun tier =>
    (pySorted (TIER_MAP tier)).flatMap fun svc =>
      (artifactsForService svc).map fun a => (svc, a)

/-- The (tier-prefix, artifact-kind) enumeration underlying batched-mode
ids. -/
def batchedIdPairs : List (String × String) :=
  TIER_CONFIGS.flatMap fun tc => tc.artifacts.map fun a => (tc.pfx, a)


/-! ## Theorems

First a toolkit about the string primitives, then one theorem (plus
counterexample/witness where applicable) per specification claim. -/

/-! ### Sanity checks of the embedding

Concrete evaluations matching the behaviour of the python source (and of
CPython `re`/`json` semantics) on the scenarios of the spec. -/

theorem embedCheck1 : truncateToValidYaml ("a: 1\n## Notes\nmore").data = ("a: 1").data := by decide

theorem embedCheck2 : truncateToValidYaml ("a: 1\n#Notes").data = ("a: 1\n#Notes").data := by decide

theorem embedCheck3 : truncateToValidYaml ("a: 1\n").data = ("a: 1").data := by decide

theorem embedCheck4 : truncateToValidJson ("\x7b\"a\":1\x7d\nEXTRA COMMENTARY").data
    = ("\x7b\"a\":1\x7d").data := by decide

theorem embedCheck5 : truncateToValidJson (" x").data = ("x").data := by decide

theorem embedCheck6 : truncateToValidJson ("[1, 2 ]  tail").data = ("[1, 2 ]").data := by decide

theorem embedCheck7 : truncateToValidJson ("\x7bbad\x7d").data = ("\x7bbad\x7d").data := by decide

theorem embedCheck8 : truncateToValidJson ("[1,]").data = ("[1,]").data := by decide

theorem embedCheck9 : truncateToValidJson ("[-Infinity, NaN]x").data = ("[-Infinity, NaN]").data := by
  decide

theorem embedCheck10 : delimiterFinditer ("--- DASHBOARD: frontend ---\nbody").data
    = [{ mstart := 0, mend := 27, ty := "DASHBOARD", name := "frontend" }] := by decide

theorem embedCheck11 : delimiterFinditer ("no delimiters here").data = [] := by decide

theorem embedCheck12 : delimiterFinditer ("x --- T: a ---").data = [] := by decide

theorem embedCheck13 : delimiterFinditer ("--- T: a---\n").data
    = [{ mstart := 0, mend := 12, ty := "T", name := "a" }] := by decide

theorem embedCheck14 : delimiterFinditer ("--- T: x ---\n\n  \ncontent").data
    = [{ mstart := 0, mend := 16, ty := "T", name := "x" }] := by decide

theorem embedCheck15 : delimiterFinditer ("---\nPARAMS: x ---").data
    = [{ mstart := 0, mend := 17, ty := "PARAMS", name := "x" }] := by decide

theorem embedCheck16 : delimiterFinditer ("--- A: b --- --- C: d ---").data = [] := by decide

theorem embedCheck17 : stripCodeFences ("```json\n\x7b\"a\":1\x7d\n```").data
    = ("\x7b\"a\":1\x7d").data := by decide

theorem embedCheck18 : stripCodeFences ("plain text").data = ("plain text").data := by decide

theorem embedCheck19 : stripCodeFences ("```yaml\na: 1\n```\ntrailing").data
    = ("a: 1\n\ntrailing").data := by decide

theorem embedCheck20 : stripCodeFences ("```   \n\n  \nABC").data = ("ABC").data := by decide

theorem embedCheck21 : stripCodeFences ("a\n``````\nb").data = ("a\n``````\nb").data := by decide

theorem embedCheck22 : parseTaskArtifactKey "OB-CRIT-DASHBOARDS" = some "DASHBOARDS" := by decide

theorem embedCheck23 : parseTaskArtifactKey "OB-LOKI" = none := by decide

theorem embedCheck24 : parseTaskArtifactKey "XX-A-B" = none := by decide

theorem embedCheck25 : parseTaskArtifactKey "OB-FRONTEND-LOKI-RULES" = some "LOKI-RULES" := by decide

theorem embedCheck26 :
    splitAndSaveArtifacts false (fun _ => false) "OB-FRONTEND-DASHBOARDS"
      (some ("--- DASHBOARD: frontend ---\n\x7b\"title\":\"x\"\x7d\nSome trailing prose").data)
      (some ["frontend"])
    = { files := [("frontend-dashboard.json", ("\x7b\"title\":\"x\"\x7d\n").data)],
        count := 1, warns := [] } := by decide

theorem embedCheck27 :
    splitAndSaveArtifacts false (fun _ => false) "OB-X-BOGUS"
      (some ("--- PARAMS: svc ---\n\x7b a: 1 \x7d").data) none
    = { files := [("svc-params.libsonnet", ("\x7b a: 1 \x7d\n").data)],
        count := 1, warns := [] } := by decide

theorem embedCheck28 :
    splitAndSaveArtifacts false (fun _ => false) "OB-CRIT-DASHBOARDS"
      (some ("no delimiters at all").data) (some ["a", "b"])
    = { files := [], count := 0, warns := [] } := by decide

theorem embedCheck29 : (demoTasks true).length = 66 := by decide

theorem embedCheck30 : (demoTasks false).length = 24 := by decide

theorem embedCheck31 :
    (demoTasks true).filter (fun t => t.id = "OB-FRONTEND-DASHBOARDS")
    = [{ id := "OB-FRONTEND-DASHBOARDS",
         title := "Generate Grafana dashboards for frontend", ttype := "task",
         phase := 1, dependsOn := [], package := "all",
         serviceName := some "frontend" }] := by decide


theorem dropWhile_head_not (p : Char → Bool) (l : List Char) (c : Char)
    (h : (l.dropWhile p).head? = some c) : p c = false := by
  induction l with
  | nil => simp at h
  | cons a t ih =>
    by_cases hp : p a
    · simp [List.dropWhile_cons, hp] at h
      exact ih h
    · simp [List.dropWhile_cons, hp] at h
      simp [← h, hp]

theorem dropWhile_eq_self_of_head (p : Char → Bool) (l : List Char)
    (h : ∀ c, l.head? = some c → p c = false) : l.dropWhile p = l := by
  cases l with
  | nil => rfl
  | cons a t => simp [List.dropWhile_cons, h a rfl]

/-- `pyrstrip` only removes a suffix. -/
theorem pyrstrip_prefix (l : List Char) : pyrstrip l <+: l := by
  have h := List.dropWhile_suffix (l := l.reverse) pyWs
  have h2 : (l.reverse.dropWhile pyWs).reverse <+: l.reverse.reverse :=
    List.reverse_prefix.mpr h
  simpa [pyrstrip] using h2

theorem pyrstrip_getLast_not_ws (l : List Char) (c : Char)
    (h : (pyrstrip l).getLast? = some c) : pyWs c = false := by
  unfold pyrstrip at h
  rw [List.getLast?_reverse] at h
  exact dropWhile_head_not pyWs l.reverse c h

theorem pyrstrip_eq_self_of_getLast (l : List Char)
    (h : ∀ c, l.getLast? = some c → pyWs c = false) : pyrstrip l = l := by
  unfold pyrstrip
  rw [dropWhile_eq_self_of_head pyWs l.reverse fun c hc => h c (by rwa [List.head?_reverse] at hc)]
  exact List.reverse_reverse l

theorem pylstrip_eq_self_of_head (l : List Char)
    (h : ∀ c, l.head? = some c → pyWs c = false) : pylstrip l = l :=
  dropWhile_eq_self_of_head pyWs l h

theorem pylstrip_head_not_ws (l : List Char) (c : Char)
    (h : (pylstrip l).head? = some c) : pyWs c = false :=
  dropWhile_head_not pyWs l c h

theorem pystrip_head_not_ws (l : List Char) (c : Char)
    (h : (pystrip l).head? = some c) : pyWs c = false := by
  unfold pystrip at h
  rcases pyrstrip_prefix (pylstrip l) with ⟨t, ht⟩
  have : (pylstrip l).head? = some c := by
    rw [← ht]
    cases hr : pyrstrip (pylstrip l) with
    | nil => rw [hr] at h; simp at h
    | cons a s => rw [hr] at h; simp at h; simp [h]
  exact pylstrip_head_not_ws l c this

theorem pystrip_getLast_not_ws (l : List Char) (c : Char)
    (h : (pystrip l).getLast? = some c) : pyWs c = false :=
  pyrstrip_getLast_not_ws (pylstrip l) c h

theorem strippedP_of_ends (l : List Char)
    (h1 : ∀ c, l.head? = some c → pyWs c = false)
    (h2 : ∀ c, l.getLast? = some c → pyWs c = false) : StrippedP l := by
  unfold StrippedP pystrip
  rw [pylstrip_eq_self_of_head l h1, pyrstrip_eq_self_of_getLast l h2]

theorem strippedP_pystrip (l : List Char) : StrippedP (pystrip l) :=
  strippedP_of_ends _ (pystrip_head_not_ws l) (pystrip_getLast_not_ws l)

theorem strippedP_lstrip_id (l : List Char) (h : StrippedP l) : pylstrip l = l := by
  apply pylstrip_eq_self_of_head
  intro c hc
  exact pystrip_head_not_ws l c (by rwa [h])

/-! ### Claim C6: YAML-mode sanitization -/

theorem findIdx_eq_length_of_false (p : α → Bool) (l : List α)
    (h : ∀ x ∈ l, p x = false) : l.findIdx p = l.length := by
  induction l with
  | nil => rfl
  | cons a t ih =>
    simp [List.findIdx_cons, h a (by simp), ih fun x hx => h x (by simp [hx])]

theorem findIdx_append_first_true (p : α → Bool) (pre post : List α) (h : α)
    (hpre : ∀ x ∈ pre, p x = false) (hh : p h = true) :
    (pre ++ h :: post).findIdx p = pre.length := by
  induction pre with
  | nil => simp [List.findIdx_cons, hh]
  | cons a t ih =>
    simp [List.findIdx_cons, hpre a (by simp),
      ih fun x hx => hpre x (by simp [hx])]

theorem splitLines_ne_nil (t : List Char) : splitLines t ≠ [] := by
  cases t with
  | nil => simp [splitLines]
  | cons c r =>
    by_cases h : c = '\n'
    · simp [splitLines, h]
    · cases hc : splitLines r with
      | nil => exact absurd hc (splitLines_ne_nil r)
      | cons a s => simp [splitLines, h, hc]

theorem joinLines_cons (l : List Char) (ls : List (List Char)) (h : ls ≠ []) :
    joinLines (l :: ls) = l ++ '\n' :: joinLines ls := by
  cases ls with
  | nil => exact absurd rfl h
  | cons a s => simp [joinLines, List.intersperse]

theorem joinLines_splitLines (t : List Char) : joinLines (splitLines t) = t := by
  induction t with
  | nil => simp [splitLines, joinLines, List.intersperse]
  | cons c r ih =>
    by_cases h : c = '\n'
    · subst h
      have hs : splitLines ('\n' :: r) = [] :: splitLines r := by simp [splitLines]
      rw [hs, joinLines_cons _ _ (splitLines_ne_nil r), ih]
      rfl
    · cases hc : splitLines r with
      | nil => exact absurd hc (splitLines_ne_nil r)
      | cons a s =>
        have hs : splitLines (c :: r) = (c :: a) :: s := by simp [splitLines, h, hc]
        rw [hc] at ih
        rw [hs]
        cases s with
        | nil =>
          have : joinLines [a] = a := by simp [joinLines, List.intersperse]
          rw [this] at ih
          simp [joinLines, List.intersperse, ih]
        | cons b s2 =>
          rw [joinLines_cons _ _ (by simp)] at ih ⊢
          simp [ih]

/-- Claim C6 as stated is false on the code: `a: 1\n#Notes` has a line with
a `#` prefix at the start of a line, yet `_truncate_to_valid_yaml` does not
truncate it (the heuristic requires `# ` or `## `, hash plus space, on the
stripped line); and `a: 1\n` contains no heading line yet is not returned
unchanged (the result is stripped). -/
theorem yamlSanitizeCounterexample :
    truncateToValidYaml ("a: 1\n#Notes").data = ("a: 1\n#Notes").data
    ∧ truncateToValidYaml ("a: 1\n").data = ("a: 1").data
    ∧ ("a: 1\n#Notes").data ≠ ("a: 1").data
    ∧ ("a: 1").data ≠ ("a: 1\n").data := by
  refine ⟨by decide, by decide, by decide, by decide⟩

/-- Claim C6 (amended): for YAML-like expected extensions, sanitization
truncates the input at the first line whose whitespace-stripped content
starts with `## ` or `# ` (hash marks followed by a space), removing that
line and everything after it and stripping leading/trailing whitespace from
the kept body; if no such line exists, the text is returned with only its
leading/trailing whitespace stripped. -/
theorem yamlSanitizeAmended (t : List Char) :
    ((∀ l ∈ splitLines t, isHeadingLine l = false) →
      truncateToValidYaml t = pystrip t)
    ∧ (∀ pre h post, splitLines t = pre ++ h :: post →
        (∀ l ∈ pre, isHeadingLine l = false) → isHeadingLine h = true →
        truncateToValidYaml t = pystrip (joinLines pre)) := by
  constructor
  · intro hall
    show pystrip (joinLines ((splitLines t).take ((splitLines t).findIdx isHeadingLine)))
      = pystrip t
    rw [findIdx_eq_length_of_false _ _ hall, List.take_length,
      joinLines_splitLines]
  · intro pre h post hsplit hpre hh
    show pystrip (joinLines ((splitLines t).take ((splitLines t).findIdx isHeadingLine)))
      = pystrip (joinLines pre)
    rw [hsplit, findIdx_append_first_true _ _ _ _ hpre hh, List.take_left]

/-- Witness for `yamlSanitizeAmended`: the spec's own example, a YAML body
followed by a `## Notes` heading line. -/
theorem yamlSanitizeAmendedWitness :
    truncateToValidYaml ("x: 1\n## Notes\nmore").data
      = pystrip (joinLines [("x: 1").data]) :=
  (yamlSanitizeAmended ("x: 1\n## Notes\nmore").data).2
    [("x: 1").data] ("## Notes").data [("more").data]
    (by decide) (by decide) (by decide)

/-! ### Claim C5: JSON-mode sanitization -/

theorem stripTok_suffix (tok l r : List Char) (h : stripTok tok l = some r) :
    r <:+ l := by
  unfold stripTok at h
  split_ifs at h
  injection h with h2
  exact h2 ▸ List.drop_suffix _ _

theorem skipJsonWs_suffix (l : List Char) : skipJsonWs l <:+ l :=
  List.dropWhile_suffix _

theorem parseStringBody_suffix :
    ∀ (fuel : Nat) (l r : List Char), parseStringBody fuel l = some r → r <:+ l := by
  intro fuel
  induction fuel with
  | zero => intro l r h; simp [parseStringBody] at h
  | succ f ih =>
    intro l r h
    cases l with
    | nil => simp [parseStringBody] at h
    | cons c cs =>
      simp only [parseStringBody] at h
      split_ifs at h with h1 h2 h3
      · cases h
        exact List.suffix_cons _ _
      · cases cs with
        | nil => simp at h
        | cons e r1 =>
          simp only at h
          split_ifs at h with hesc heu
          · exact ((ih _ _ h).trans (List.suffix_cons _ _)).trans (List.suffix_cons _ _)
          · rcases r1 with _ | ⟨a1, _ | ⟨a2, _ | ⟨a3, _ | ⟨a4, r2⟩⟩⟩⟩ <;>
              simp only at h
            · simp at h
            · simp at h
            · simp at h
            · simp at h
            · split_ifs at h with hhex
              exact (ih _ _ h).trans ⟨[c, e, a1, a2, a3, a4], rfl⟩
      · exact (ih _ _ h).trans (List.suffix_cons _ _)

/-- Joint structural property of the scanner: each parse function returns a
suffix of its input, and the object/array parsers consume through a closing
`}` / `]` respectively. -/
theorem parseSuffix (fuel : Nat) :
    (∀ l r, parseValue fuel l = some r → r <:+ l)
    ∧ (∀ l r, parseObjStart fuel l = some r → '}' :: r <:+ l)
    ∧ (∀ l r, parseObjLoop fuel l = some r → '}' :: r <:+ l)
    ∧ (∀ l r, parseArrStart fuel l = some r → ']' :: r <:+ l)
    ∧ (∀ l r, parseArrLoop fuel l = some r → ']' :: r <:+ l) := by
  induction fuel with
  | zero =>
    refine ⟨?_, ?_, ?_, ?_, ?_⟩ <;> intro l r h <;>
      simp [parseValue, parseObjStart, parseObjLoop, parseArrStart, parseArrLoop] at h
  | succ f ih =>
    obtain ⟨ihV, ihOS, ihOL, ihAS, ihAL⟩ := ih
    refine ⟨?_, ?_, ?_, ?_, ?_⟩
    · -- parseValue
      intro l r h
      cases l with
      | nil => simp [parseValue] at h
      | cons c cs =>
        simp only [parseValue] at h
        split_ifs at h with h1 h2 h3 h4 h5 h6 h7 h8 h9
        · exact (parseStringBody_suffix _ _ _ h).trans (List.suffix_cons _ _)
        · exact ((List.suffix_cons '}' r).trans (ihOS _ _ h)).trans (List.suffix_cons _ _)
        · exact ((List.suffix_cons ']' r).trans (ihAS _ _ h)).trans (List.suffix_cons _ _)
        · exact (stripTok_suffix _ _ _ h).trans (List.suffix_cons _ _)
        · exact (stripTok_suffix _ _ _ h).trans (List.suffix_cons _ _)
        · exact (stripTok_suffix _ _ _ h).trans (List.suffix_cons _ _)
        · exact (stripTok_suffix _ _ _ h).trans (List.suffix_cons _ _)
        · exact (stripTok_suffix _ _ _ h).trans (List.suffix_cons _ _)
        · -- c = '-' after NUMBER_RE failed or succeeded
          cases hn : parseNumberLen (c :: cs) with
          | some n =>
            simp only [hn] at h
            injection h with h10
            exact h10 ▸ List.drop_suffix _ _
          | none =>
            simp only [hn] at h
            exact (stripTok_suffix _ _ _ h).trans (List.suffix_cons _ _)
        · cases hn : parseNumberLen (c :: cs) with
          | some n =>
            simp only [hn] at h
            injection h with h10
            exact h10 ▸ List.drop_suffix _ _
          | none => simp [hn] at h
    · -- parseObjStart
      intro l r h
      simp only [parseObjStart] at h
      cases hw : skipJsonWs l with
      | nil => simp [hw] at h
      | cons c cs =>
        simp only [hw] at h
        split_ifs at h with h1 h2
        · cases h
          exact h1 ▸ hw ▸ skipJsonWs_suffix l
        · cases hs : parseStringBody (cs.length + 1) cs with
          | none => simp [hs] at h
          | some afterKey =>
            simp only [hs] at h
            cases hw2 : skipJsonWs afterKey with
            | nil => simp [hw2] at h
            | cons c2 r2 =>
              simp only [hw2] at h
              split_ifs at h with hcolon
              cases hv : parseValue f (skipJsonWs r2) with
              | none => simp [hv] at h
              | some afterVal =>
                simp only [hv] at h
                have step1 : '}' :: r <:+ afterVal := ihOL _ _ h
                have chain : afterVal <:+ l :=
                  ((ihV _ _ hv).trans (skipJsonWs_suffix r2)).trans
                    (((List.suffix_cons c2 r2).trans (hw2 ▸ skipJsonWs_suffix afterKey)).trans
                      (((parseStringBody_suffix _ _ _ hs).trans (List.suffix_cons c cs)).trans
                        (hw ▸ skipJsonWs_suffix l)))
                exact step1.trans chain
    · -- parseObjLoop
      intro l r h
      simp only [parseObjLoop] at h
      cases hw : skipJsonWs l with
      | nil => simp [hw] at h
      | cons c cs =>
        simp only [hw] at h
        split_ifs at h with h1 h2
        · cases h
          exact h1 ▸ hw ▸ skipJsonWs_suffix l
        · cases hw1 : skipJsonWs cs with
          | nil => simp [hw1] at h
          | cons c2 r2 =>
            simp only [hw1] at h
            split_ifs at h with hq
            cases hs : parseStringBody (r2.length + 1) r2 with
            | none => simp [hs] at h
            | some afterKey =>
              simp only [hs] at h
              cases hw2 : skipJsonWs afterKey with
              | nil => simp [hw2] at h
              | cons c3 r3 =>
                simp only [hw2] at h
                split_ifs at h with hcolon
                cases hv : parseValue f (skipJsonWs r3) with
                | none => simp [hv] at h
                | some afterVal =>
                  simp only [hv] at h
                  have step1 : '}' :: r <:+ afterVal := ihOL _ _ h
                  have chain : afterVal <:+ l :=
                    ((ihV _ _ hv).trans (skipJsonWs_suffix r3)).trans
                      (((List.suffix_cons c3 r3).trans (hw2 ▸ skipJsonWs_suffix afterKey)).trans
                        (((parseStringBody_suffix _ _ _ hs).trans
                            ((List.suffix_cons c2 r2).trans (hw1 ▸ skipJsonWs_suffix cs))).trans
                          ((List.suffix_cons c cs).trans (hw ▸ skipJsonWs_suffix l))))
                  exact step1.trans chain
    · -- parseArrStart
      intro l r h
      simp only [parseArrStart] at h
      cases hw : skipJsonWs l with
      | nil => simp [hw] at h
      | cons c cs =>
        simp only [hw] at h
        split_ifs at h with h1
        · cases h
          exact h1 ▸ hw ▸ skipJsonWs_suffix l
        · cases hv : parseValue f (c :: cs) with
          | none => simp [hv] at h
          | some afterVal =>
            simp only [hv] at h
            have step1 : ']' :: r <:+ afterVal := ihAL _ _ h
            exact step1.trans ((ihV _ _ hv).trans (hw ▸ skipJsonWs_suffix l))
    · -- parseArrLoop
      intro l r h
      simp only [parseArrLoop] at h
      cases hw : skipJsonWs l with
      | nil => simp [hw] at h
      | cons c cs =>
        simp only [hw] at h
        split_ifs at h with h1 h2
        · cases h
          exact h1 ▸ hw ▸ skipJsonWs_suffix l
        · cases hv : parseValue f (skipJsonWs cs) with
          | none => simp [hv] at h
          | some afterVal =>
            simp only [hv] at h
            have step1 : ']' :: r <:+ afterVal := ihAL _ _ h
            exact step1.trans (((ihV _ _ hv).trans (skipJsonWs_suffix cs)).trans
              ((List.suffix_cons c cs).trans (hw ▸ skipJsonWs_suffix l)))

theorem rawDecode_obj (cs r : List Char) (h : rawDecode ('{' :: cs) = some r) :
    ∃ mid, cs = mid ++ '}' :: r := by
  unfold rawDecode at h
  simp only [List.length_cons] at h
  simp [parseValue] at h
  obtain ⟨p, hp⟩ := (parseSuffix (cs.length + 2)).2.1 _ _ h
  exact ⟨p, hp.symm⟩

theorem rawDecode_arr (cs r : List Char) (h : rawDecode ('[' :: cs) = some r) :
    ∃ mid, cs = mid ++ ']' :: r := by
  unfold rawDecode at h
  simp only [List.length_cons] at h
  simp [parseValue] at h
  obtain ⟨p, hp⟩ := (parseSuffix (cs.length + 2)).2.2.2.1 _ _ h
  exact ⟨p, hp.symm⟩

theorem pystrip_bracketed (o k : Char) (mid : List Char)
    (ho : pyWs o = false) (hk : pyWs k = false) :
    pystrip (o :: mid ++ [k]) = o :: mid ++ [k] := by
  apply strippedP_of_ends
  · intro c hc
    simp at hc
    exact hc ▸ ho
  · intro c hc
    rw [show (o :: mid ++ [k]) = (o :: mid) ++ [k] by simp] at hc
    rw [List.getLast?_concat] at hc
    cases hc
    exact hk

/-- Claim C5 as stated is false on the code: the input `" x"` fails to
parse as JSON, yet `_truncate_to_valid_json` does not return it unchanged —
it returns the lstripped text `"x"`. -/
theorem jsonSanitizeCounterexample :
    rawDecode (" x").data = none
    ∧ truncateToValidJson (" x").data = ("x").data
    ∧ ("x").data ≠ (" x").data := by
  refine ⟨by decide, by decide, by decide⟩

/-- Claim C5 (amended): for JSON-like expected extensions, when the
lstripped text starts with `{` or `[` and its leading value decodes, the
sanitizer returns exactly the prefix of the lstripped text consumed by
decoding that first value; in every other case (no leading `{`/`[`, or a
decode failure) the text is returned with only its leading whitespace
removed (hence unchanged whenever it has no leading whitespace). -/
theorem jsonSanitizeAmended (t : List Char) :
    (∀ rest, ((pylstrip t).head? = some '{' ∨ (pylstrip t).head? = some '[') →
        rawDecode (pylstrip t) = some rest →
        truncateToValidJson t
          = (pylstrip t).take ((pylstrip t).length - rest.length))
    ∧ ((∀ c, (pylstrip t).head? = some c → ¬(c = '{' ∨ c = '[')) →
        truncateToValidJson t = pylstrip t)
    ∧ (rawDecode (pylstrip t) = none → truncateToValidJson t = pylstrip t) := by
  refine ⟨?_, ?_, ?_⟩
  · rintro rest (hh | hh) hdec
    · obtain ⟨cs, hcs⟩ : ∃ cs, pylstrip t = '{' :: cs := by
        cases hpl : pylstrip t with
        | nil => rw [hpl] at hh; simp at hh
        | cons a b =>
          rw [hpl] at hh
          simp at hh
          exact ⟨b, by rw [hh]⟩
      rw [hcs] at hdec
      obtain ⟨mid, hmid⟩ := rawDecode_obj cs rest hdec
      subst hmid
      simp only [truncateToValidJson]
      rw [hcs]
      simp only [List.head?_cons]
      rw [if_pos (by decide)]
      simp only [hdec]
      rw [show ('{' :: (mid ++ '}' :: rest)) = ('{' :: mid ++ ['}']) ++ rest by simp]
      rw [show (('{' :: mid ++ ['}']) ++ rest).length - rest.length
          = ('{' :: mid ++ ['}']).length by simp [List.length_append]; omega]
      rw [List.take_left]
      exact pystrip_bracketed '{' '}' mid (by decide) (by decide)
    · obtain ⟨cs, hcs⟩ : ∃ cs, pylstrip t = '[' :: cs := by
        cases hpl : pylstrip t with
        | nil => rw [hpl] at hh; simp at hh
        | cons a b =>
          rw [hpl] at hh
          simp at hh
          exact ⟨b, by rw [hh]⟩
      rw [hcs] at hdec
      obtain ⟨mid, hmid⟩ := rawDecode_arr cs rest hdec
      subst hmid
      simp only [truncateToValidJson]
      rw [hcs]
      simp only [List.head?_cons]
      rw [if_pos (by decide)]
      simp only [hdec]
      rw [show ('[' :: (mid ++ ']' :: rest)) = ('[' :: mid ++ [']']) ++ rest by simp]
      rw [show (('[' :: mid ++ [']']) ++ rest).length - rest.length
          = ('[' :: mid ++ [']']).length by simp [List.length_append]; omega]
      rw [List.take_left]
      exact pystrip_bracketed '[' ']' mid (by decide) (by decide)
  · intro hno
    cases hpl : (pylstrip t).head? with
    | none => simp [truncateToValidJson, hpl]
    | some c =>
      have hc := hno c hpl
      simp only [truncateToValidJson, hpl]
      rw [if_neg (by simpa using hc)]
  · intro hdec
    cases hpl : (pylstrip t).head? with
    | none => simp [truncateToValidJson, hpl]
    | some c =>
      by_cases hc : c = '{' || c = '['
      · simp only [truncateToValidJson, hpl]
        rw [if_pos hc, hdec]
      · simp only [truncateToValidJson, hpl]
        rw [if_neg (by simpa using hc)]

/-- Witness for `jsonSanitizeAmended`: the spec's own example
`{"a":1}` + newline + trailing commentary yields exactly `{"a":1}`. -/
theorem jsonSanitizeAmendedWitness :
    truncateToValidJson ("\x7b\"a\":1\x7d\nEXTRA COMMENTARY").data
      = (pylstrip ("\x7b\"a\":1\x7d\nEXTRA COMMENTARY").data).take
          ((pylstrip ("\x7b\"a\":1\x7d\nEXTRA COMMENTARY").data).length
            - (("\nEXTRA COMMENTARY").data).length)
    ∧ truncateToValidJson ("\x7b\"a\":1\x7d\nEXTRA COMMENTARY").data
      = ("\x7b\"a\":1\x7d").data :=
  ⟨(jsonSanitizeAmended ("\x7b\"a\":1\x7d\nEXTRA COMMENTARY").data).1
      ("\nEXTRA COMMENTARY").data (Or.inl (by decide)) (by decide),
   by decide⟩

/-! ### Claim C1: single-service fallback -/

/-- Claim C1: when the delimiter scanner finds zero matches in the coerced
output text and exactly one service name is expected (and the task id
carries a known artifact code, so extraction reaches the raw-output
handler), the entire sanitized output is saved as that service's artifact
and extraction returns 1; when sanitization leaves nothing, zero artifacts
are saved, and in both cases no warning or error is produced. -/
theorem singleServiceFallback (ja : Bool) (co : String → Bool) (tid : String)
    (text : List Char) (s : String) (key dt : String) (cfg : OutputCfg)
    (hkey : parseTaskArtifactKey tid = some key)
    (hdt : taskKeyToDelimiter key = some dt)
    (hcfg : artifactOutputConfig dt = some cfg)
    (hms : delimiterFinditer text = []) :
    (truncateForExt cfg.ext (stripCodeFences text) ≠ [] →
      splitAndSaveArtifacts ja co tid (some text) (some [s])
        = { files := [(s ++ "-" ++ cfg.sfx ++ "." ++ cfg.ext,
              truncateForExt cfg.ext (stripCodeFences text) ++ ['\n'])],
            count := 1, warns := [] })
    ∧ (truncateForExt cfg.ext (stripCodeFences text) = [] →
      splitAndSaveArtifacts ja co tid (some text) (some [s])
        = { files := [], count := 0, warns := [] }) := by
  constructor <;> intro h <;>
    simp [splitAndSaveArtifacts, handleRawOutput, hkey, hms, hdt, hcfg,
      List.isEmpty_iff, h]

/-- Witness for `singleServiceFallback`: a fenceless non-JSON body for a
single-service dashboard task is saved whole. -/
theorem singleServiceFallbackWitness :
    splitAndSaveArtifacts false (fun _ => false) "OB-CRIT-DASHBOARDS"
        (some ("hello").data) (some ["frontend"])
      = { files := [("frontend-dashboard.json", ("hello").data ++ ['\n'])],
          count := 1, warns := [] } := by
  have h := (singleServiceFallback false (fun _ => false) "OB-CRIT-DASHBOARDS"
    ("hello").data "frontend" "DASHBOARDS" "DASHBOARD"
    { dir := "dashboards", sfx := "dashboard", ext := "json" }
    (by decide) (by decide) (by decide) (by decide)).1 (by decide)
  exact h.trans (by decide)

/-! ### Claim C7: mismatched delimiter types are skipped -/

theorem filterMap_skip_guard (l : List α) (q : α → String) (dt : String)
    (f : α → Option β) :
    (l.filterMap fun x => if q x ≠ dt then none else f x)
      = (l.filter fun x => q x = dt).filterMap f := by
  have hfn : (fun x => if q x ≠ dt then none else f x)
      = fun x => if q x = dt then f x else none := by
    funext x
    by_cases h : q x = dt <;> simp [h]
  rw [hfn]
  induction l with
  | nil => rfl
  | cons a t ih =>
    by_cases h : q a = dt <;>
      cases hf : f a <;>
        simp [List.filterMap_cons, List.filter_cons, h, hf, ih]

/-- Claim C7: a delimiter match whose declared type token differs from the
type implied by the task's artifact code is never saved — the saved files
of both the raw and the params handler are exactly those produced from the
matches of the expected type (with spans still measured against the full
match list), so skipping a mismatched match does not disturb its siblings;
both handlers are total functions, so no error is raised. -/
theorem mismatchedTypeNeverSaved (ja : Bool) (co : String → Bool)
    (key dt : String) (cfg : OutputCfg) (content : List Char)
    (ms : List DelimMatch) (svc : Option (List String))
    (hdt : taskKeyToDelimiter key = some dt)
    (hcfg : artifactOutputConfig dt = some cfg)
    (hms : ms ≠ []) :
    ((handleRawOutput key content ms svc).files
        = ((ms.enum.filter fun p => p.2.ty = dt).filterMap
            (processRawEntry cfg content ms))
      ∧ ∀ f ∈ (handleRawOutput key content ms svc).files,
          ∃ p ∈ ms.enum, p.2.ty = dt
            ∧ f.1 = p.2.name ++ "-" ++ cfg.sfx ++ "." ++ cfg.ext)
    ∧ (handleParamsOutput ja co key content ms svc).files
        = ((ms.enum.filter fun p => p.2.ty = "PARAMS").filterMap
            (processParamsEntry content ms)).map fun e => (e.2.1, e.2.2) := by
  have hempty : ms.isEmpty = false := by simpa [List.isEmpty_iff] using hms
  have hfiles : (handleRawOutput key content ms svc).files
      = ((ms.enum.filter fun p => p.2.ty = dt).filterMap
          (processRawEntry cfg content ms)) := by
    simp only [handleRawOutput, hdt, hcfg, hempty]
    rw [← filterMap_skip_guard ms.enum (fun p => p.2.ty) dt]
    simp
  refine ⟨⟨hfiles, ?_⟩, ?_⟩
  · intro f hf
    rw [hfiles] at hf
    obtain ⟨p, hp, hfp⟩ := List.mem_filterMap.mp hf
    obtain ⟨hpmem, hpty⟩ := List.mem_filter.mp hp
    refine ⟨p, hpmem, by simpa using hpty, ?_⟩
    simp only [processRawEntry] at hfp
    split_ifs at hfp
    injection hfp with hfp2
    exact hfp2 ▸ rfl
  · simp only [handleParamsOutput]
    rw [← filterMap_skip_guard ms.enum (fun p => p.2.ty) "PARAMS"]

/-- Witness for `mismatchedTypeNeverSaved`: an SLO block inside a dashboard
task's output is well-formed but skipped; the dashboard block is saved. -/
theorem mismatchedTypeNeverSavedWitness :
    (handleRawOutput "DASHBOARDS"
        ("--- SLO: web ---\nx: 1\n--- DASHBOARD: web ---\nbody").data
        (delimiterFinditer
          ("--- SLO: web ---\nx: 1\n--- DASHBOARD: web ---\nbody").data)
        none).files
      = (((delimiterFinditer
            ("--- SLO: web ---\nx: 1\n--- DASHBOARD: web ---\nbody").data).enum.filter
              fun p => p.2.ty = "DASHBOARD").filterMap
          (processRawEntry { dir := "dashboards", sfx := "dashboard", ext := "json" }
            ("--- SLO: web ---\nx: 1\n--- DASHBOARD: web ---\nbody").data
            (delimiterFinditer
              ("--- SLO: web ---\nx: 1\n--- DASHBOARD: web ---\nbody").data))) :=
  (mismatchedTypeNeverSaved false (fun _ => false) "DASHBOARDS" "DASHBOARD"
    { dir := "dashboards", sfx := "dashboard", ext := "json" }
    ("--- SLO: web ---\nx: 1\n--- DASHBOARD: web ---\nbody").data
    (delimiterFinditer ("--- SLO: web ---\nx: 1\n--- DASHBOARD: web ---\nbody").data)
    none (by decide) (by decide) (by decide)).1.1

/-! ### Claim C8: foreign task ids and unknown artifact codes -/

/-- Claim C8 as stated is false on the code: `OB-X-BOGUS` has a third
segment outside the artifact-code vocabulary, yet when the raw output
contains a `PARAMS` delimiter block, extraction dispatches to the params
handler, which never consults the vocabulary: one params file is saved and
the call returns 1, not 0. -/
theorem foreignTaskIdCounterexample :
    taskKeyToDelimiter "BOGUS" = none
    ∧ parseTaskArtifactKey "OB-X-BOGUS" = some "BOGUS"
    ∧ splitAndSaveArtifacts false (fun _ => false) "OB-X-BOGUS"
        (some ("--- PARAMS: svc ---\n\x7b a: 1 \x7d").data) none
      = { files := [("svc-params.libsonnet", ("\x7b a: 1 \x7d\n").data)],
          count := 1, warns := [] } := by
  refine ⟨by decide, by decide, by decide⟩

/-- Claim C8 (amended): a task id without the three dash-separated segments
or whose first segment is not `OB` yields zero artifacts and no error for
any raw output (also for a `None` payload); an id whose third segment is
outside the artifact-code vocabulary yields zero artifacts provided the
output contains no `PARAMS`-typed delimiter match — when a `PARAMS` match
is present the params path runs and may save files regardless of the
vocabulary. -/
theorem foreignTaskIdAmended (ja : Bool) (co : String → Bool) (tid : String)
    (text : List Char) (svc : Option (List String)) :
    ((splitDashMax2 tid.data).length < 3
        ∨ (splitDashMax2 tid.data).head? ≠ some ("OB").data →
      splitAndSaveArtifacts ja co tid (some text) svc
        = { files := [], count := 0, warns := [] })
    ∧ (∀ key, parseTaskArtifactKey tid = some key →
        taskKeyToDelimiter key = none →
        ¬ (delimiterFinditer text).any (fun m => m.ty = "PARAMS") →
        splitAndSaveArtifacts ja co tid (some text) svc
          = { files := [], count := 0, warns := [] })
    ∧ splitAndSaveArtifacts ja co tid none svc
        = { files := [], count := 0, warns := [] } := by
  refine ⟨?_, ?_, rfl⟩
  · intro hshape
    have hkey : parseTaskArtifactKey tid = none := by
      unfold parseTaskArtifactKey
      rw [if_pos]
      rcases hshape with h | h
      · simp [h]
      · simp [h]
    simp [splitAndSaveArtifacts, hkey]
  · intro key hkey hdt hparams
    simp only [splitAndSaveArtifacts, hkey]
    rw [if_neg (by simpa using hparams)]
    simp [handleRawOutput, hdt]

/-- Witness for `foreignTaskIdAmended`: a two-segment id is a no-op. -/
theorem foreignTaskIdAmendedWitness :
    splitAndSaveArtifacts false (fun _ => false) "OB-LOAD"
        (some ("--- DASHBOARD: a ---\nx").data) (some ["a"])
      = { files := [], count := 0, warns := [] } :=
  (foreignTaskIdAmended false (fun _ => false) "OB-LOAD"
    ("--- DASHBOARD: a ---\nx").data (some ["a"])).1 (Or.inl (by decide))

/-! ### Claim C9: truncation warning -/

/-- Claim C9 as stated is false on the code: a task whose output contains
no delimiter at all, with two expected services, saves zero artifacts
(fewer than expected) yet surfaces no truncation warning — the zero-match
path returns early with only a debug log. -/
theorem truncationWarningCounterexample :
    (splitAndSaveArtifacts false (fun _ => false) "OB-CRIT-DASHBOARDS"
        (some ("no delimiters at all").data) (some ["a", "b"])).count = 0
    ∧ (splitAndSaveArtifacts false (fun _ => false) "OB-CRIT-DASHBOARDS"
        (some ("no delimiters at all").data) (some ["a", "b"])).warns = [] := by
  refine ⟨by decide, by decide⟩

/-- Claim C9 (amended): on the raw-output path, when the scanner finds at
least one delimiter match, extraction returns the saved count and surfaces
the (saved, expected) truncation warning exactly when fewer artifacts were
saved than services expected; warnings are data, not exceptions.  The
zero-match raw path and the params path never emit the warning. -/
theorem truncationWarningAmended (ja : Bool) (co : String → Bool)
    (tid : String) (text : List Char) (l : List String) (key : String)
    (hkey : parseTaskArtifactKey tid = some key)
    (hl : l ≠ []) :
    (∀ dt cfg, taskKeyToDelimiter key = some dt →
      artifactOutputConfig dt = some cfg →
      delimiterFinditer text ≠ [] →
      ¬ (delimiterFinditer text).any (fun m => m.ty = "PARAMS") →
      (splitAndSaveArtifacts ja co tid (some text) (some l)).count
          = (splitAndSaveArtifacts ja co tid (some text) (some l)).files.length
        ∧ ((splitAndSaveArtifacts ja co tid (some text) (some l)).count < l.length →
            (splitAndSaveArtifacts ja co tid (some text) (some l)).warns
              = [((splitAndSaveArtifacts ja co tid (some text) (some l)).count,
                  l.length)])
        ∧ (¬ (splitAndSaveArtifacts ja co tid (some text) (some l)).count < l.length →
            (splitAndSaveArtifacts ja co tid (some text) (some l)).warns = []))
    ∧ ((delimiterFinditer text).any (fun m => m.ty = "PARAMS") →
        (splitAndSaveArtifacts ja co tid (some text) (some l)).warns = []) := by
  constructor
  · intro dt cfg hdt hcfg hne hparams
    have hempty : (delimiterFinditer text).isEmpty = false := by
      simpa [List.isEmpty_iff] using hne
    have hout : splitAndSaveArtifacts ja co tid (some text) (some l)
        = handleRawOutput key text (delimiterFinditer text) (some l) := by
      simp only [splitAndSaveArtifacts, hkey]
      rw [if_neg (by simpa using hparams)]
    rw [hout]
    simp only [handleRawOutput, hdt, hcfg, hempty, Bool.false_eq_true, if_false]
    have h1 : l.isEmpty = false := by simpa [List.isEmpty_iff] using hl
    refine ⟨by trivial, ?_, ?_⟩
    · intro hlt
      rw [if_pos]
      simp only [h1, Bool.not_false, Bool.true_and, decide_eq_true_eq]
      exact hlt
    · intro hge
      rw [if_neg]
      simp only [h1, Bool.not_false, Bool.true_and, decide_eq_true_eq]
      exact hge
  · intro hparams
    simp only [splitAndSaveArtifacts, hkey]
    rw [if_pos (by simpa using hparams)]
    rfl

/-- Witness for `truncationWarningAmended`: a batched alerts task with four
expected services whose output carries only three well-formed rule blocks
saves 3 and warns (3, 4). -/
theorem truncationWarningAmendedWitness :
    (splitAndSaveArtifacts false (fun _ => false) "OB-CRIT-ALERTS"
        (some ("--- PROMETHEUS_RULE: a ---\nr: 1\n--- PROMETHEUS_RULE: b ---\nr: 2\n--- PROMETHEUS_RULE: c ---\nr: 3").data)
        (some ["a", "b", "c", "d"])).count
      = (splitAndSaveArtifacts false (fun _ => false) "OB-CRIT-ALERTS"
        (some ("--- PROMETHEUS_RULE: a ---\nr: 1\n--- PROMETHEUS_RULE: b ---\nr: 2\n--- PROMETHEUS_RULE: c ---\nr: 3").data)
        (some ["a", "b", "c", "d"])).files.length
    ∧ (splitAndSaveArtifacts false (fun _ => false) "OB-CRIT-ALERTS"
        (some ("--- PROMETHEUS_RULE: a ---\nr: 1\n--- PROMETHEUS_RULE: b ---\nr: 2\n--- PROMETHEUS_RULE: c ---\nr: 3").data)
        (some ["a", "b", "c", "d"])).warns
      = [((splitAndSaveArtifacts false (fun _ => false) "OB-CRIT-ALERTS"
        (some ("--- PROMETHEUS_RULE: a ---\nr: 1\n--- PROMETHEUS_RULE: b ---\nr: 2\n--- PROMETHEUS_RULE: c ---\nr: 3").data)
        (some ["a", "b", "c", "d"])).count, 4)] := by
  have h := (truncationWarningAmended false (fun _ => false) "OB-CRIT-ALERTS"
    ("--- PROMETHEUS_RULE: a ---\nr: 1\n--- PROMETHEUS_RULE: b ---\nr: 2\n--- PROMETHEUS_RULE: c ---\nr: 3").data
    ["a", "b", "c", "d"] "ALERTS" (by decide) (by decide)).1
    "PROMETHEUS_RULE" { dir := "prometheus-rules", sfx := "rules", ext := "yaml" }
    (by decide) (by decide) (by decide) (by decide)
  exact ⟨h.1, h.2.1 (by decide)⟩

/-! ### Claim C10: saved file contents -/

theorem strippedP_stripCodeFences (t : List Char) : StrippedP (stripCodeFences t) := by
  unfold stripCodeFences
  exact strippedP_pystrip _

theorem strippedP_truncateToValidYaml (t : List Char) :
    StrippedP (truncateToValidYaml t) := by
  unfold truncateToValidYaml
  exact strippedP_pystrip _

theorem strippedP_truncateToValidJson (t : List Char) (h : StrippedP t) :
    StrippedP (truncateToValidJson t) := by
  simp only [truncateToValidJson, strippedP_lstrip_id t h]
  cases hh : t.head? with
  | none => simpa [hh] using h
  | some c =>
    simp only [hh]
    split_ifs with hc
    · cases hd : rawDecode t with
      | none => simpa [hd] using h
      | some rest => simp only [hd]; exact strippedP_pystrip _
    · exact h

theorem strippedP_truncateForExt (ext : String) (t : List Char) (h : StrippedP t) :
    StrippedP (truncateForExt ext t) := by
  unfold truncateForExt
  split_ifs
  · exact strippedP_truncateToValidJson t h
  · exact strippedP_truncateToValidYaml t
  · exact h

/-- Claim C10: every artifact file written by extraction — raw path,
single-service fallback path, and params path alike — has content equal to
a non-empty sanitized text (a fixed point of `strip()`, so it ends in a
non-whitespace character) followed by exactly one appended trailing
newline. -/
theorem savedFileShape (ja : Bool) (co : String → Bool) (tid : String)
    (content : Option (List Char)) (svc : Option (List String)) :
    ∀ f ∈ (splitAndSaveArtifacts ja co tid content svc).files,
      ∃ s, f.2 = s ++ ['\n'] ∧ s ≠ [] ∧ pystrip s = s := by
  intro f hf
  match content with
  | none => simp [splitAndSaveArtifacts] at hf
  | some text =>
    cases hkey : parseTaskArtifactKey tid with
    | none => simp [splitAndSaveArtifacts, hkey] at hf
    | some key =>
      simp only [splitAndSaveArtifacts, hkey] at hf
      by_cases hp : ((delimiterFinditer text).any fun m => m.ty = "PARAMS") = true
      · rw [if_pos hp] at hf
        simp only [handleParamsOutput] at hf
        obtain ⟨e, he, hfe⟩ := List.mem_map.mp hf
        obtain ⟨q, hqm, hqe⟩ := List.mem_filterMap.mp he
        split_ifs at hqe
        simp only [processParamsEntry] at hqe
        split_ifs at hqe with hg1 hg2
        injection hqe with hqe2
        refine ⟨stripCodeFences (pystrip (rawSpan text (delimiterFinditer text) q.1)),
          ?_, by simpa using hg2, (strippedP_stripCodeFences _ : StrippedP _)⟩
        rw [← hfe, ← hqe2]
      · rw [if_neg hp] at hf
        simp only [handleRawOutput] at hf
        cases hdt : taskKeyToDelimiter key with
        | none => simp [hdt] at hf
        | some dt =>
          simp only [hdt] at hf
          cases hcfg : artifactOutputConfig dt with
          | none => simp [hcfg] at hf
          | some cfg =>
            simp only [hcfg] at hf
            by_cases hempty : (delimiterFinditer text).isEmpty = true
            · rw [if_pos hempty] at hf
              rcases svc with _ | ⟨_ | ⟨s0, _ | ⟨s1, srest⟩⟩⟩ <;>
                simp only at hf
              · simp at hf
              · simp at hf
              · split_ifs at hf with hg
                · simp at hf
                · simp only [List.mem_singleton] at hf
                  refine ⟨truncateForExt cfg.ext (stripCodeFences text),
                    by rw [hf], by simpa using hg,
                    strippedP_truncateForExt cfg.ext _ (strippedP_stripCodeFences text)⟩
              · simp at hf
            · rw [if_neg hempty] at hf
              simp only [List.mem_filterMap] at hf
              obtain ⟨q, hqm, hqe⟩ := hf
              split_ifs at hqe
              simp only [processRawEntry] at hqe
              split_ifs at hqe with hg1 hg2 hg3
              injection hqe with hqe2
              refine ⟨truncateForExt cfg.ext
                  (stripCodeFences (pystrip (rawSpan text (delimiterFinditer text) q.1))),
                by rw [← hqe2], by simpa using hg3,
                strippedP_truncateForExt cfg.ext _ (strippedP_stripCodeFences _)⟩

/-- Witness for `savedFileShape`: the saved dashboard file of the scenario
task ends in exactly one newline appended to stripped content. -/
theorem savedFileShapeWitness :
    ∃ s, (("frontend-dashboard.json", ("\x7b\"title\":\"x\"\x7d\n").data)
        : String × List Char).2 = s ++ ['\n'] ∧ s ≠ [] ∧ pystrip s = s :=
  savedFileShape false (fun _ => false) "OB-FRONTEND-DASHBOARDS"
    (some ("--- DASHBOARD: frontend ---\n\x7b\"title\":\"x\"\x7d\nSome trailing prose").data)
    (some ["frontend"])
    ("frontend-dashboard.json", ("\x7b\"title\":\"x\"\x7d\n").data)
    (by decide)

/-! ### Claim C2: phase monotonicity and acyclicity -/

/-- A task list whose every dependency points to an earlier list position
has an acyclic dependency relation. -/
theorem acyclic_of_rank (ts : List TaskSpec)
    (hrank : ∀ t ∈ ts, ∀ d ∈ t.dependsOn,
      ts.findIdx (fun u => u.id = d) < ts.findIdx (fun u => u.id = t.id)) :
    ∀ a, ¬ Relation.TransGen (taskDependsOn ts) a a := by
  have hstep : ∀ x y, taskDependsOn ts x y →
      ts.findIdx (fun u => u.id = y) < ts.findIdx (fun u => u.id = x) := by
    rintro x y ⟨t, ht, rfl, hy⟩
    exact hrank t ht y hy
  have htrans : ∀ x y, Relation.TransGen (taskDependsOn ts) x y →
      ts.findIdx (fun u => u.id = y) < ts.findIdx (fun u => u.id = x) := by
    intro x y h
    induction h with
    | single h1 => exact hstep _ _ h1
    | tail _ h2 ih => exact lt_trans (hstep _ _ h2) ih
  intro a ha
  exact absurd (htrans a a ha) (lt_irrefl _)

/-- Claim C2 as stated is false on the code: in the generated task list the
verification task `OB-VERIFY` (phase 5) depends directly on the load task
`OB-LOAD`, which also has phase 5 — an equal-phase dependency edge. -/
theorem phaseMonotonicityCounterexample :
    ∃ t ∈ demoTasks true, ∃ d ∈ demoTasks true,
      d.id ∈ t.dependsOn ∧ d.phase ≥ t.phase := by decide

/-- Claim C2 (amended): in either expansion mode, every dependency edge
goes to a task of smaller or equal phase, with equality only on the single
edge from `OB-VERIFY` to `OB-LOAD` (both phase 5); the dependency graph
contains no cycle. -/
theorem phaseMonotonicityAmended (m : Bool) :
    (∀ t ∈ demoTasks m, ∀ d ∈ demoTasks m, d.id ∈ t.dependsOn →
      d.phase ≤ t.phase ∧ (d.phase = t.phase → t.id = "OB-VERIFY" ∧ d.id = "OB-LOAD"))
    ∧ ∀ a, ¬ Relation.TransGen (taskDependsOn (demoTasks m)) a a := by
  cases m with
  | false => exact ⟨by decide, acyclic_of_rank _ (by decide)⟩
  | true => exact ⟨by decide, acyclic_of_rank _ (by decide)⟩

/-- Witness for `phaseMonotonicityAmended`: the edge from `OB-SUMMARY`
(phase 6) to `OB-VERIFY` (phase 5) decreases the phase. -/
theorem phaseMonotonicityAmendedWitness :
    (5 : Nat) ≤ 6 ∧ ((5 : Nat) = 6 →
      "OB-SUMMARY" = "OB-VERIFY" ∧ "OB-VERIFY" = "OB-LOAD") :=
  (phaseMonotonicityAmended true).1
    { id := "OB-SUMMARY", title := "Generate execution summary and coverage report",
      ttype := "task", phase := 6, dependsOn := ["OB-VERIFY"], package := "all",
      serviceName := none } (by decide)
    { id := "OB-VERIFY", title := "Verify artifact generation and loading",
      ttype := "task", phase := 5, dependsOn := ["OB-LOAD"], package := "spider",
      serviceName := none } (by decide) (by decide)

/-! ### Claim C3: decomposed-mode gating -/

/-- Claim C3: in decomposed mode every artifact task of the high, medium
and low tiers depends on exactly the dashboard-kind task ids of the
immediately prior tier — all of them and nothing else — and every
critical-tier artifact task has an empty dependency list. -/
theorem decomposedGating :
    ∀ t ∈ decompTasks,
      (taskTier t = some "critical" → t.dependsOn = [])
      ∧ (taskTier t = some "high" → t.dependsOn = dashIdsOfTier "critical")
      ∧ (taskTier t = some "medium" → t.dependsOn = dashIdsOfTier "high")
      ∧ (taskTier t = some "low" → t.dependsOn = dashIdsOfTier "medium") := by
  have h1 : dashIdsOfTier "critical"
      = ["OB-CARTSERVICE-DASHBOARDS", "OB-CHECKOUTSERVICE-DASHBOARDS",
         "OB-FRONTEND-DASHBOARDS", "OB-PAYMENTSERVICE-DASHBOARDS"] := by decide
  have h2 : dashIdsOfTier "high"
      = ["OB-CURRENCYSERVICE-DASHBOARDS", "OB-PRODUCTCATALOGSERVICE-DASHBOARDS",
         "OB-SHIPPINGSERVICE-DASHBOARDS"] := by decide
  have h3 : dashIdsOfTier "medium"
      = ["OB-ADSERVICE-DASHBOARDS", "OB-EMAILSERVICE-DASHBOARDS",
         "OB-RECOMMENDATIONSERVICE-DASHBOARDS"] := by decide
  simp only [h1, h2, h3]
  decide

/-- Witness for `decomposedGating`: the loadgenerator dashboard task (low
tier) depends on exactly the three medium-tier dashboard ids. -/
theorem decomposedGatingWitness :
    taskTier (⟨"OB-LOADGENERATOR-DASHBOARD",
        "Generate Grafana dashboard for loadgenerator", "task", 4,
        ["OB-ADSERVICE-DASHBOARDS", "OB-EMAILSERVICE-DASHBOARDS",
         "OB-RECOMMENDATIONSERVICE-DASHBOARDS"], "all",
        some "loadgenerator"⟩ : TaskSpec) = some "low"
    ∧ (⟨"OB-LOADGENERATOR-DASHBOARD",
        "Generate Grafana dashboard for loadgenerator", "task", 4,
        ["OB-ADSERVICE-DASHBOARDS", "OB-EMAILSERVICE-DASHBOARDS",
         "OB-RECOMMENDATIONSERVICE-DASHBOARDS"], "all",
        some "loadgenerator"⟩ : TaskSpec).dependsOn = dashIdsOfTier "medium" :=
  ⟨by decide,
   (decomposedGating
     (⟨"OB-LOADGENERATOR-DASHBOARD",
       "Generate Grafana dashboard for loadgenerator", "task", 4,
       ["OB-ADSERVICE-DASHBOARDS", "OB-EMAILSERVICE-DASHBOARDS",
        "OB-RECOMMENDATIONSERVICE-DASHBOARDS"], "all",
       some "loadgenerator"⟩ : TaskSpec)
     (by decide)).2.2.2 (by decide)⟩

/-! ### Claim C4: builder determinism and id purity -/

theorem persistTasks_core (u : Nat → String × String) (now : String) :
    ∀ (ts : List TaskSpec) (i : Nat) (es : Option String),
      (persistTasks u now ts i es).map persistedCore
        = ts.map fun t => (t.id, t.dependsOn, t.phase) := by
  intro ts
  induction ts with
  | nil => intro i es; rfl
  | cons t rest ih =>
    intro i es
    simp [persistTasks, createTaskJson, persistedCore, ih]

/-- Claim C4: two setup runs over the same taxonomy and mode persist
identical (task id, dependency list, phase) triples regardless of the
random uuid stream and of the wall clock — the persisted core is a pure
function of the task list; the generated artifact-task ids are exactly the
pure function `OB-<scope>-<artifact>` of the (tier-or-service,
artifact-kind) enumeration, in both modes, and contain no duplicates. -/
theorem builderDeterminism :
    (∀ (u u' : Nat → String × String) (now now' : String) (m : Bool),
      (setupRun m u now).map persistedCore = (setupRun m u' now').map persistedCore)
    ∧ (generateDecomposedTasks presentAll).2
        = decomposedIdPairs.map (fun p => "OB-" ++ pyUpper p.1 ++ "-" ++ p.2)
    ∧ (generateBatchedTasks presentAll).2
        = batchedIdPairs.map (fun p => "OB-" ++ p.1 ++ "-" ++ p.2)
    ∧ (∀ m : Bool, ((demoTasks m).map (·.id)).Nodup) := by
  refine ⟨?_, by decide, by decide, ?_⟩
  · intro u u' now now' m
    unfold setupRun
    rw [persistTasks_core, persistTasks_core]
  · intro m
    cases m with
    | false => decide
    | true => decide
